import Mathlib

/-
Shallow embedding of the window-backend integration layer in
crates/bevy_winit/src/winit_windows.rs.

Conventions of the embedding:
 - Entities, winit window identifiers, window handles and platform errors
   are all opaque in the source; they are modelled as Nat.
 - The f32/f64 arithmetic of the positioner is modelled over the rational
   numbers, with the explicit round-half-away-from-zero and saturating
   casts that the float-to-integer conversions of the source perform.
 - Hash maps are modelled as functions into Option, with pointwise insert
   and remove (the overwrite semantics of HashMap::insert).
 - The platform (winit event loop and window) is an explicit parameter: a
   record of functions standing for event_loop.create_window and
   window.set_cursor_grab.  Cfg-gated WinRT/UWP and wasm code paths are
   inactive in the default configuration and are not modelled.
-/

namespace BevyWinit

/-- Pointwise overwrite insert of HashMap::insert. -/
def mapInsert (k v : Nat) (m : Nat → Option Nat) : Nat → Option Nat :=
  fun q => if q = k then some v else m q

/-- Pointwise remove of HashMap::remove. -/
def mapRemove (k : Nat) (m : Nat → Option Nat) : Nat → Option Nat :=
  fun q => if q = k then none else m q

/-- A video mode as enumerated by winit (monitor::VideoMode): physical size,
optional refresh rate in millihertz, optional bit depth. -/
structure VideoMode where
  width : Nat
  height : Nat
  refresh_rate_millihertz : Option Nat
  bit_depth : Option Nat
deriving DecidableEq

/-- The specific video mode requested through
bevy_window::VideoModeSelection::Specific (bevy_window's VideoMode struct:
physical_size UVec2, refresh_rate_millihertz u32, bit_depth u16). -/
structure BevyVideoMode where
  physical_size_x : Nat
  physical_size_y : Nat
  refresh_rate_millihertz : Nat
  bit_depth : Nat
deriving DecidableEq

/-- bevy_window::VideoModeSelection. -/
inductive VideoModeSelection
  | Current
  | Specific (specified : BevyVideoMode)
deriving DecidableEq

/-- A winit MonitorHandle, reduced to the queries the source performs on it:
position, scale_factor, video_modes and current_video_mode. -/
structure MonitorHandle where
  position : Option (Int × Int)
  scale_factor : ℚ
  video_modes : List VideoMode
  current_video_mode : Option VideoMode

/-- bevy_window::MonitorSelection. -/
inductive MonitorSelection
  | Current
  | Primary
  | Index (n : Nat)
  | Entity (entity : Nat)
deriving DecidableEq

/-- Modelled from the spec: the repository's WinitMonitors type lives in
crates/bevy_winit/src/winit_monitors.rs, which is not under src.  Per the
spec, the monitor directory is an ordered list of known monitors, each
associated with an optional owning entity, supporting lookup by index (in
enumeration order) and by owning entity. -/
structure WinitMonitors where
  monitors : List (Option Nat × MonitorHandle)

/-- Modelled from the spec: Index(n) delegates to the directory's n-th
monitor, in enumeration order, or none if out of range. -/
def WinitMonitors.nth (monitors : WinitMonitors) (n : Nat) : Option MonitorHandle :=
  (monitors.monitors.get? n).map (fun p => p.2)

/-- Modelled from the spec: Entity(e) delegates to the directory's reverse
lookup from owning entity to monitor, or none if the entity owns no
monitor. -/
def WinitMonitors.find_entity (monitors : WinitMonitors) (entity : Nat) : Option MonitorHandle :=
  (monitors.monitors.find? (fun p => p.1 = some entity)).map (fun p => p.2)

/-- select_monitor (winit_windows.rs, lines 522-541). -/
def select_monitor (monitors : WinitMonitors)
    (primary_monitor current_monitor : Option MonitorHandle)
    (monitor_selection : MonitorSelection) : Option MonitorHandle :=
  match monitor_selection with
  | .Current => current_monitor
  | .Primary => primary_monitor
  | .Index n => monitors.nth n
  | .Entity entity => monitors.find_entity entity

/-- get_selected_videomode (winit_windows.rs, lines 392-409). -/
def get_selected_videomode (monitor : MonitorHandle)
    (selection : VideoModeSelection) : Option VideoMode :=
  match selection with
  | .Current => monitor.current_video_mode
  | .Specific specified =>
    monitor.video_modes.find? (fun mode =>
      mode.width == specified.physical_size_x
        && mode.height == specified.physical_size_y
        && (mode.refresh_rate_millihertz.getD 0 == specified.refresh_rate_millihertz)
        && (mode.bit_depth.getD 0 == specified.bit_depth))

/-- The registry WinitWindows (winit_windows.rs, lines 27-38): windows by
winit id, entity to winit id, winit id to entity. -/
structure WinitWindows where
  windows : Nat → Option Nat
  entity_to_winit : Nat → Option Nat
  winit_to_entity : Nat → Option Nat

/-- WinitWindows::new (winit_windows.rs, lines 42-49): all maps empty. -/
def WinitWindows.new : WinitWindows :=
  { windows := fun _ => none
    entity_to_winit := fun _ => none
    winit_to_entity := fun _ => none }

/-- WinitWindows::remove_window (winit_windows.rs, lines 383-387): remove
the entity from entity_to_winit; on a hit, remove the id from
winit_to_entity, then remove and return the stored window. -/
def remove_window (self : WinitWindows) (entity : Nat) :
    Option Nat × WinitWindows :=
  match self.entity_to_winit entity with
  | none => (none, self)
  | some winit_id =>
    let self1 : WinitWindows :=
      { self with entity_to_winit := mapRemove entity self.entity_to_winit }
    let self2 : WinitWindows :=
      { self1 with winit_to_entity := mapRemove winit_id self1.winit_to_entity }
    (self2.windows winit_id,
      { self2 with windows := mapRemove winit_id self2.windows })

/-- Rust f64::round, as performed by winit's Pixel::from_f64: round half
away from zero. -/
def roundHalfAway (q : ℚ) : Int :=
  if 0 ≤ q then ⌊q + 1/2⌋ else -⌊-q + 1/2⌋

/-- The f64-to-u32 conversion of LogicalSize::to_physical for Pixel u32:
round, then a saturating Rust float-to-int cast (clamped to 0..=u32::MAX). -/
def u32cast (q : ℚ) : Nat :=
  min (roundHalfAway q).toNat (2 ^ 32 - 1)

/-- The f64-to-i32 conversion of PhysicalPosition::cast for Pixel i32 after
rounding: a saturating Rust float-to-int cast into the i32 range. -/
def i32cast (z : Int) : Int :=
  max (-(2 ^ 31)) (min z (2 ^ 31 - 1))

/-- bevy_window::WindowPosition.  At holds an IVec2 (i32 coordinates). -/
inductive WindowPosition
  | Automatic
  | Centered (monitor_selection : MonitorSelection)
  | At (position : Int × Int)
deriving DecidableEq

/-- The part of bevy_window::WindowResolution the source reads: logical
width and height and the optional scale factor override. -/
structure WindowResolution where
  width : ℚ
  height : ℚ
  scale_factor_override : Option ℚ

/-- winit_window_position (winit_windows.rs, lines 461-519).  The At branch
casts i32 coordinates through f64 and back, which is the identity on i32,
so it returns the point unchanged. -/
def winit_window_position (position : WindowPosition)
    (resolution : WindowResolution) (monitors : WinitMonitors)
    (primary_monitor current_monitor : Option MonitorHandle) :
    Option (Int × Int) :=
  match position with
  | .Automatic => none
  | .Centered monitor_selection =>
    match select_monitor monitors primary_monitor current_monitor
        monitor_selection with
    | some monitor =>
      match monitor.current_video_mode with
      | none => none
      | some video_mode =>
        let monitor_pos := monitor.position.getD (0, 0)
        let scale_factor : ℚ :=
          match resolution.scale_factor_override with
          | some scale_factor_override => scale_factor_override
          | none => monitor.scale_factor
        let width : Nat := u32cast (resolution.width * scale_factor)
        let height : Nat := u32cast (resolution.height * scale_factor)
        let x : ℚ := ((video_mode.width - width : Nat) : ℚ) / 2 + (monitor_pos.1 : ℚ)
        let y : ℚ := ((video_mode.height - height : Nat) : ℚ) / 2 + (monitor_pos.2 : ℚ)
        some (i32cast (roundHalfAway x), i32cast (roundHalfAway y))
    | none => none
  | .At p => some p

/-- bevy_window::CursorGrabMode. -/
inductive CursorGrabMode
  | None
  | Confined
  | Locked
deriving DecidableEq

/-- winit::window::CursorGrabMode. -/
inductive WinitCursorGrabMode
  | None
  | Confined
  | Locked
deriving DecidableEq

/-- attempt_grab (winit_windows.rs, lines 424-456), over an explicit
platform stub standing for winit_window.set_cursor_grab.  Result::or_else
discards the first error and returns the second call's result. -/
def attempt_grab (set_cursor_grab : WinitCursorGrabMode → Except Nat Unit)
    (grab_mode : CursorGrabMode) : Except Nat Unit :=
  let grab_result :=
    match grab_mode with
    | .None => set_cursor_grab .None
    | .Confined =>
      match set_cursor_grab .Confined with
      | .ok u => .ok u
      | .error _e => set_cursor_grab .Locked
    | .Locked =>
      match set_cursor_grab .Locked with
      | .ok u => .ok u
      | .error _e => set_cursor_grab .Confined
  match grab_result with
  | .ok u => .ok u
  | .error err => .error err

/-- The sequence of set_cursor_grab requests attempt_grab issues against the
given stub, in order (instrumentation of the same source lines). -/
def attempt_grab_requests
    (set_cursor_grab : WinitCursorGrabMode → Except Nat Unit)
    (grab_mode : CursorGrabMode) : List WinitCursorGrabMode :=
  match grab_mode with
  | .None => [.None]
  | .Confined =>
    match set_cursor_grab .Confined with
    | .ok _ => [.Confined]
    | .error _ => [.Confined, .Locked]
  | .Locked =>
    match set_cursor_grab .Locked with
    | .ok _ => [.Locked]
    | .error _ => [.Locked, .Confined]

/-- bevy_window::WindowMode. -/
inductive WindowMode
  | Windowed
  | BorderlessFullscreen (monitor_selection : MonitorSelection)
  | Fullscreen (monitor_selection : MonitorSelection)
      (video_mode_selection : VideoModeSelection)
deriving DecidableEq

/-- winit::monitor::Fullscreen. -/
inductive Fullscreen
  | Exclusive (monitor : MonitorHandle) (video_mode : VideoMode)
  | Borderless (monitor : Option MonitorHandle)

/-- A requested surface size: with_surface_size is given either a logical
size or a physical size (the logical size scaled by the override factor
through to_physical, exact in f64). -/
inductive SurfaceSize
  | Logical (width height : ℚ)
  | Physical (width height : ℚ)

/-- The decision-relevant fields of winit's WindowAttributes set by
create_window.  The purely mechanical one-to-one attributes (title,
decorations, resizability, ...) are excluded, as the spec excludes them. -/
structure WindowAttributes where
  fullscreen : Option Fullscreen := none
  position : Option (Int × Int) := none
  surface_size : Option SurfaceSize := none

/-- Warnings emitted on the degraded paths of create_window's fullscreen
resolution (winit_windows.rs, lines 110-113 and 117-119). -/
inductive CreateWarning
  | NoVideoMode
  | NoMonitor
deriving DecidableEq

/-- The fields of bevy_window::Window that create_window's decision logic
reads. -/
structure Window where
  mode : WindowMode
  position : WindowPosition
  resolution : WindowResolution
  visible : Bool

/-- bevy_window::CursorOptions. -/
structure CursorOptions where
  grab_mode : CursorGrabMode
  visible : Bool
  hit_test : Bool

/-- The attribute-resolution phase of WinitWindows::create_window
(winit_windows.rs, lines 71-144): monitor selection, fullscreen / video
mode resolution with its degraded fallbacks, and windowed position and
surface size.  Returns the attributes and the warnings emitted. -/
def create_window_attributes (window : Window) (monitors : WinitMonitors)
    (primary_monitor : Option MonitorHandle) :
    WindowAttributes × List CreateWarning :=
  let winit_window_attributes : WindowAttributes := {}
  let maybe_selected_monitor :=
    match window.mode with
    | .BorderlessFullscreen monitor_selection =>
      select_monitor monitors primary_monitor none monitor_selection
    | .Fullscreen monitor_selection _ =>
      select_monitor monitors primary_monitor none monitor_selection
    | .Windowed => none
  match window.mode with
  | .BorderlessFullscreen _ =>
    ({ winit_window_attributes with
        fullscreen := some (.Borderless maybe_selected_monitor) }, [])
  | .Fullscreen _ video_mode_selection =>
    match maybe_selected_monitor with
    | some selected =>
      match get_selected_videomode selected video_mode_selection with
      | some video_mode =>
        ({ winit_window_attributes with
            fullscreen := some (.Exclusive selected video_mode) }, [])
      | none => (winit_window_attributes, [.NoVideoMode])
    | none =>
      ({ winit_window_attributes with
          fullscreen := some (.Borderless none) }, [.NoMonitor])
  | .Windowed =>
    let attrs :=
      match winit_window_position window.position window.resolution monitors
          primary_monitor none with
      | some position => { winit_window_attributes with position := some position }
      | none => winit_window_attributes
    let logical_size := (window.resolution.width, window.resolution.height)
    match window.resolution.scale_factor_override with
    | some sf =>
      ({ attrs with
          surface_size := some (.Physical (logical_size.1 * sf) (logical_size.2 * sf)) }, [])
    | none =>
      ({ attrs with
          surface_size := some (.Logical logical_size.1 logical_size.2) }, [])

/-- The platform calls create_window issues: event_loop.create_window
(returning a fresh window id and handle, or a platform error) and the
created window's set_cursor_grab. -/
structure Platform where
  create : WindowAttributes → Except Nat (Nat × Nat)
  set_cursor_grab : WinitCursorGrabMode → Except Nat Unit

/-- The observable per-window platform calls create_window performs after
a successful platform creation, in order. -/
inductive Effect
  | SetVisible (visible : Bool)
  | Grab (mode : WinitCursorGrabMode)
  | SetCursorVisible (visible : Bool)
  | SetCursorHittest (hit_test : Bool)
deriving DecidableEq

/-- WinitWindows::create_window (winit_windows.rs, lines 52-364): resolve
attributes, issue the platform creation call (propagating its error with no
map touched), apply visibility, grab mode (skipped when the policy is None,
result discarded), cursor visibility and hit test (only when disabling),
then insert into entity_to_winit, winit_to_entity and windows.  Returns the
result, the new registry and the per-window platform effects. -/
def create_window (platform : Platform) (self : WinitWindows) (entity : Nat)
    (window : Window) (cursor_options : CursorOptions)
    (monitors : WinitMonitors) (primary_monitor : Option MonitorHandle) :
    Except Nat Nat × WinitWindows × List Effect :=
  let attrs := (create_window_attributes window monitors primary_monitor).1
  match platform.create attrs with
  | .error e => (.error e, self, [])
  | .ok (winit_id, winit_window) =>
    let grab_effects :=
      if cursor_options.grab_mode ≠ CursorGrabMode.None then
        (attempt_grab_requests platform.set_cursor_grab
          cursor_options.grab_mode).map Effect.Grab
      else []
    let hittest_effects :=
      if !cursor_options.hit_test then [Effect.SetCursorHittest false] else []
    let self1 : WinitWindows :=
      { windows := mapInsert winit_id winit_window self.windows
        entity_to_winit := mapInsert entity winit_id self.entity_to_winit
        winit_to_entity := mapInsert winit_id entity self.winit_to_entity }
    (.ok winit_window, self1,
      Effect.SetVisible window.visible :: grab_effects
        ++ Effect.SetCursorVisible cursor_options.visible :: hittest_effects)

/-- A platform whose creation call succeeds with the given id and handle
and whose cursor calls succeed. -/
def okPlatform (winit_id winit_window : Nat) : Platform :=
  { create := fun _ => .ok (winit_id, winit_window)
    set_cursor_grab := fun _ => .ok () }

/-- A plain windowed configuration (its attribute content does not affect
the registry maps). -/
def plainWindow : Window :=
  { mode := .Windowed
    position := .Automatic
    resolution := { width := 1, height := 1, scale_factor_override := none }
    visible := true }

/-- Default cursor options: no grab, visible cursor, hit test enabled. -/
def plainCursorOptions : CursorOptions :=
  { grab_mode := .None, visible := true, hit_test := true }

/-- An empty monitor directory. -/
def noMonitors : WinitMonitors := ⟨[]⟩

/-- One registry operation: a create_window call in which the platform
hands back the given fresh id and handle, or a remove_window call. -/
inductive RegistryOp
  | create (entity winit_id winit_window : Nat)
  | remove (entity : Nat)
deriving DecidableEq

/-- Apply one operation to the registry through the source operations. -/
def apply_op (op : RegistryOp) (s : WinitWindows) : WinitWindows :=
  match op with
  | .create entity winit_id winit_window =>
    (create_window (okPlatform winit_id winit_window) s entity plainWindow
      plainCursorOptions noMonitors none).2.1
  | .remove entity => (remove_window s entity).2

/-- Run a sequence of registry operations from a starting state. -/
def run_ops (ops : List RegistryOp) (s : WinitWindows) : WinitWindows :=
  ops.foldl (fun s op => apply_op op s) s

/-- The three-map consistency invariant of the claim: entity_to_winit and
winit_to_entity are exact mutual inverses, every registered id has a stored
window, and windows has no other keys (every stored id is in
winit_to_entity, hence, by inversion, reached from entity_to_winit). -/
def RegistryInv (s : WinitWindows) : Prop :=
  (∀ entity winit_id, s.entity_to_winit entity = some winit_id →
    s.winit_to_entity winit_id = some entity ∧ (s.windows winit_id).isSome) ∧
  (∀ winit_id entity, s.winit_to_entity winit_id = some entity →
    s.entity_to_winit entity = some winit_id) ∧
  (∀ winit_id, (s.windows winit_id).isSome → (s.winit_to_entity winit_id).isSome)

/-- The platform-freshness and caller-responsibility precondition of one
operation: a create registers a not-yet-registered entity under a window id
that is not currently a live window's id. -/
def op_ok (op : RegistryOp) (s : WinitWindows) : Prop :=
  match op with
  | .create entity winit_id _ =>
    s.entity_to_winit entity = none ∧ s.windows winit_id = none
  | .remove _ => True

/-- The precondition holds at every step of the sequence. -/
def ops_ok : List RegistryOp → WinitWindows → Prop
  | [], _ => True
  | op :: rest, s => op_ok op s ∧ ops_ok rest (apply_op op s)

/-- A platform whose creation call is rejected with error 7. -/
def failPlatform : Platform :=
  { create := fun _ => .error 7
    set_cursor_grab := fun _ => .ok () }

/-- A platform whose creation call succeeds with id 2 and handle 3 but
whose set_cursor_grab always fails with error 9. -/
def grabFailPlatform : Platform :=
  { create := fun _ => .ok (2, 3)
    set_cursor_grab := fun _ => .error 9 }

/-- A cursor stub that rejects Confined with error 1 and Locked with
error 2. -/
def rejectBothStub : WinitCursorGrabMode → Except Nat Unit :=
  fun mode =>
    match mode with
    | .None => .ok ()
    | .Confined => .error 1
    | .Locked => .error 2

/-- The 1920x1080 at 60 Hz, 24-bit video mode. -/
def videoMode1920 : VideoMode :=
  { width := 1920, height := 1080
    refresh_rate_millihertz := some 60000, bit_depth := some 24 }

/-- The 1920x1080 at 60 Hz, 32-bit video mode. -/
def videoMode1920x32 : VideoMode :=
  { width := 1920, height := 1080
    refresh_rate_millihertz := some 60000, bit_depth := some 32 }

/-- A monitor of physical size 1920x1080 at origin (0,0) with scale
factor 1. -/
def centerMonitor : MonitorHandle :=
  { position := some (0, 0)
    scale_factor := 1
    video_modes := [videoMode1920]
    current_video_mode := some videoMode1920 }

/-- A window resolution of logical size 800x600 with no scale factor
override. -/
def centerResolution : WindowResolution :=
  { width := 800, height := 600, scale_factor_override := none }

/-- A monitor enumerating the modes [(1920,1080,60000,24),
(1920,1080,60000,32)]. -/
def exampleMonitor : MonitorHandle :=
  { position := none
    scale_factor := 1
    video_modes := [videoMode1920, videoMode1920x32]
    current_video_mode := some videoMode1920 }

/-- The specific selection requesting 1920x1080, 60000 mHz, bit depth 32. -/
def exampleSpec : BevyVideoMode :=
  { physical_size_x := 1920, physical_size_y := 1080
    refresh_rate_millihertz := 60000, bit_depth := 32 }

/-- A monitor that enumerates no video modes at all. -/
def noModesMonitor : MonitorHandle :=
  { position := some (0, 0)
    scale_factor := 1
    video_modes := []
    current_video_mode := none }

/-- A directory holding one monitor (owned by no entity) with no modes. -/
def oneMonitorDir : WinitMonitors := ⟨[(none, noModesMonitor)]⟩

/-- A window requesting exclusive fullscreen on the directory's first
monitor with the 32-bit specific mode. -/
def fsWindow : Window :=
  { mode := .Fullscreen (.Index 0) (.Specific exampleSpec)
    position := .Automatic
    resolution := { width := 1, height := 1, scale_factor_override := none }
    visible := true }

/-- Cursor options requesting a Confined grab. -/
def confinedCursorOptions : CursorOptions :=
  { grab_mode := .Confined, visible := true, hit_test := true }

/-- The four-field exact-match relation of the Specific video mode scan,
as a proposition: width, height, refresh rate in millihertz and bit depth
all agree, an absent platform rate or depth comparing as 0. -/
def SpecMatches (specified : BevyVideoMode) (mode : VideoMode) : Prop :=
  mode.width = specified.physical_size_x ∧
  mode.height = specified.physical_size_y ∧
  mode.refresh_rate_millihertz.getD 0 = specified.refresh_rate_millihertz ∧
  mode.bit_depth.getD 0 = specified.bit_depth

instance (specified : BevyVideoMode) (mode : VideoMode) :
    Decidable (SpecMatches specified mode) := by
  unfold SpecMatches
  infer_instance

/-- The registry state after a create operation is the three pointwise
inserts of the success path of create_window. -/
theorem apply_op_create (entity winit_id winit_window : Nat)
    (s : WinitWindows) :
    apply_op (.create entity winit_id winit_window) s =
      { windows := mapInsert winit_id winit_window s.windows
        entity_to_winit := mapInsert entity winit_id s.entity_to_winit
        winit_to_entity := mapInsert winit_id entity s.winit_to_entity } := rfl

/-- Claim C3: if the platform creation call fails, create_window returns
the platform error and leaves the registry state exactly as it was, with
no per-window platform call issued. -/
theorem create_window_atomic_on_failure (platform : Platform)
    (s : WinitWindows) (entity : Nat) (window : Window)
    (cursor_options : CursorOptions) (monitors : WinitMonitors)
    (primary_monitor : Option MonitorHandle) (e : Nat)
    (h : platform.create
      (create_window_attributes window monitors primary_monitor).1 = .error e) :
    create_window platform s entity window cursor_options monitors
      primary_monitor = (.error e, s, []) := by
  simp [create_window, h]

/-- Witness for claim C3 at an always-failing platform. -/
theorem create_window_atomic_on_failure_witness :
    create_window failPlatform WinitWindows.new 0 plainWindow
      plainCursorOptions noMonitors none =
      (.error 7, WinitWindows.new, []) :=
  create_window_atomic_on_failure failPlatform WinitWindows.new 0 plainWindow
    plainCursorOptions noMonitors none 7 rfl

/-- Claim C4: removing an unregistered entity returns none and leaves the
registry literally unchanged; removing a registered entity removes its
entry from all three maps and returns the stored window handle. -/
theorem remove_window_spec (s : WinitWindows) (entity : Nat) :
    (s.entity_to_winit entity = none →
      remove_window s entity = (none, s)) ∧
    (∀ winit_id, s.entity_to_winit entity = some winit_id →
      (remove_window s entity).1 = s.windows winit_id ∧
      (∀ handle, s.windows winit_id = some handle →
        (remove_window s entity).1 = some handle) ∧
      (remove_window s entity).2.entity_to_winit =
        mapRemove entity s.entity_to_winit ∧
      (remove_window s entity).2.winit_to_entity =
        mapRemove winit_id s.winit_to_entity ∧
      (remove_window s entity).2.windows = mapRemove winit_id s.windows) := by
  constructor
  · intro h
    simp [remove_window, h]
  · intro winit_id h
    refine ⟨?_, ?_, ?_, ?_, ?_⟩ <;>
      simp [remove_window, h]

/-- Witness for claim C4: after registering entity 4 under id 5 with
handle 6, removal returns handle 6 and clears the stored window. -/
theorem remove_window_spec_witness :
    (remove_window (apply_op (RegistryOp.create 4 5 6) WinitWindows.new) 4).1 =
      some 6 ∧
    (remove_window (apply_op (RegistryOp.create 4 5 6) WinitWindows.new)
      4).2.windows 5 = none := by
  have h := (remove_window_spec
    (apply_op (RegistryOp.create 4 5 6) WinitWindows.new) 4).2 5 rfl
  refine ⟨h.2.1 6 rfl, ?_⟩
  rw [h.2.2.2.2]
  rfl

/-- Claim C8: monitor selection by an index at or past the number of known
monitors returns none; Primary and Current return the passed-in values
verbatim; Entity consults the directory's reverse lookup. -/
theorem select_monitor_spec (monitors : WinitMonitors)
    (primary_monitor current_monitor : Option MonitorHandle)
    (n entity : Nat) :
    (monitors.monitors.length ≤ n →
      select_monitor monitors primary_monitor current_monitor (.Index n) = none) ∧
    select_monitor monitors primary_monitor current_monitor .Primary =
      primary_monitor ∧
    select_monitor monitors primary_monitor current_monitor .Current =
      current_monitor ∧
    select_monitor monitors primary_monitor current_monitor (.Entity entity) =
      monitors.find_entity entity := by
  refine ⟨?_, rfl, rfl, rfl⟩
  intro h
  simp [select_monitor, WinitMonitors.nth]
  exact h

/-- Witness for claim C8: index 5 into a one-monitor directory is none, and
Primary hands back the given monitor. -/
theorem select_monitor_spec_witness :
    select_monitor oneMonitorDir none none (.Index 5) = none ∧
    select_monitor oneMonitorDir (some noModesMonitor) none .Primary =
      some noModesMonitor :=
  ⟨(select_monitor_spec oneMonitorDir none none 5 0).1 (by decide),
    (select_monitor_spec oneMonitorDir (some noModesMonitor) none 5 0).2.1⟩

/-- Counterexample to claim C2 as stated: against a stub that rejects
Confined with error 1 and Locked with error 2, attempt_grab Confined
returns error 2, the fallback attempt's error, not the original confined
rejection error 1. -/
theorem attempt_grab_counterexample :
    attempt_grab rejectBothStub CursorGrabMode.Confined = .error 2 ∧
    rejectBothStub WinitCursorGrabMode.Confined = .error 1 ∧
    (Except.error 2 : Except Nat Unit) ≠ .error 1 := by
  refine ⟨rfl, rfl, ?_⟩
  simp

/-- Claim C2 (amended): Confined first requests a confined grab and on
rejection retries with locked, Locked is the mirror, the call succeeds if
either attempt succeeds, and when both attempts fail the error returned to
the caller is the fallback attempt's error (Result::or_else discards the
primary error). -/
theorem attempt_grab_spec (stub : WinitCursorGrabMode → Except Nat Unit) :
    ((attempt_grab_requests stub .Confined).head? = some .Confined ∧
      (attempt_grab_requests stub .Locked).head? = some .Locked) ∧
    (∀ e, stub .Confined = .error e →
      attempt_grab_requests stub .Confined = [.Confined, .Locked] ∧
      attempt_grab stub CursorGrabMode.Confined = stub .Locked) ∧
    (∀ e, stub .Locked = .error e →
      attempt_grab_requests stub .Locked = [.Locked, .Confined] ∧
      attempt_grab stub CursorGrabMode.Locked = stub .Confined) ∧
    ((stub .Confined).isOk →
      attempt_grab_requests stub .Confined = [.Confined]) ∧
    ((stub .Locked).isOk →
      attempt_grab_requests stub .Locked = [.Locked]) ∧
    ((attempt_grab stub CursorGrabMode.Confined).isOk ↔
      (stub .Confined).isOk ∨ (stub .Locked).isOk) ∧
    ((attempt_grab stub CursorGrabMode.Locked).isOk ↔
      (stub .Locked).isOk ∨ (stub .Confined).isOk) ∧
    (∀ e1 e2, stub .Confined = .error e1 → stub .Locked = .error e2 →
      attempt_grab stub CursorGrabMode.Confined = .error e2 ∧
      attempt_grab stub CursorGrabMode.Locked = .error e1) := by
  cases h1 : stub .Confined <;> cases h2 : stub .Locked <;>
    simp [attempt_grab, attempt_grab_requests, h1, h2, Except.isOk,
      Except.toBool]

/-- Witness for claim C2's amended double-failure clause at a stub
rejecting both grab styles with distinct errors. -/
theorem attempt_grab_spec_witness :
    attempt_grab rejectBothStub CursorGrabMode.Confined = .error 2 ∧
    attempt_grab rejectBothStub CursorGrabMode.Locked = .error 1 :=
  (attempt_grab_spec rejectBothStub).2.2.2.2.2.2.2 1 2 rfl rfl

/-- Counterexample to claim C1 as stated: the sequence [create 0 0 0,
create 0 1 1] re-registers entity 0 under the fresh id 1; id 0 keeps its
stale reverse entry and its stored handle, so the maps are no longer
mutual inverses. -/
theorem registry_inv_counterexample :
    ¬ RegistryInv (run_ops [RegistryOp.create 0 0 0, RegistryOp.create 0 1 1]
      WinitWindows.new) := by
  intro h
  have h1 : (run_ops [RegistryOp.create 0 0 0, RegistryOp.create 0 1 1]
      WinitWindows.new).winit_to_entity 0 = some 0 := rfl
  have h2 := h.2.1 0 0 h1
  have h3 : (run_ops [RegistryOp.create 0 0 0, RegistryOp.create 0 1 1]
      WinitWindows.new).entity_to_winit 0 = some 1 := rfl
  rw [h2] at h3
  exact absurd h3 (by decide)

/-- One legal registry operation preserves the three-map invariant. -/
theorem registry_inv_step (s : WinitWindows) (op : RegistryOp)
    (hInv : RegistryInv s) (hok : op_ok op s) :
    RegistryInv (apply_op op s) := by
  obtain ⟨inv1, inv2, inv3⟩ := hInv
  cases op with
  | create entity winit_id winit_window =>
    obtain ⟨hfresh_e, hfresh_i⟩ := hok
    rw [apply_op_create]
    refine ⟨?_, ?_, ?_⟩
    · intro e i h
      by_cases he : e = entity
      · subst he
        have hi : i = winit_id := by
          have : some winit_id = some i := by simpa [mapInsert] using h
          exact (Option.some.inj this).symm
        subst hi
        exact ⟨by simp [mapInsert], by simp [mapInsert]⟩
      · have h' : s.entity_to_winit e = some i := by
          simpa [mapInsert, he] using h
        have hi : i ≠ winit_id := by
          intro hi
          subst hi
          have := (inv1 e i h').2
          rw [hfresh_i] at this
          simp at this
        refine ⟨?_, ?_⟩
        · simp [mapInsert, hi, (inv1 e i h').1]
        · simpa [mapInsert, hi] using (inv1 e i h').2
    · intro i e h
      by_cases hi : i = winit_id
      · subst hi
        have he : some entity = some e := by simpa [mapInsert] using h
        rw [← Option.some.inj he]
        simp [mapInsert]
      · have h' : s.winit_to_entity i = some e := by
          simpa [mapInsert, hi] using h
        have he : e ≠ entity := by
          intro he
          subst he
          have := inv2 i e h'
          rw [hfresh_e] at this
          cases this
        simpa [mapInsert, he] using inv2 i e h'
    · intro i h
      by_cases hi : i = winit_id
      · subst hi
        simp [mapInsert]
      · have h' : (s.windows i).isSome := by simpa [mapInsert, hi] using h
        simpa [mapInsert, hi] using inv3 i h'
  | remove entity =>
    cases hE : s.entity_to_winit entity with
    | none =>
      have hs : apply_op (.remove entity) s = s := by
        simp [apply_op, remove_window, hE]
      rw [hs]
      exact ⟨inv1, inv2, inv3⟩
    | some winit_id =>
      have hs : apply_op (.remove entity) s =
          { windows := mapRemove winit_id s.windows
            entity_to_winit := mapRemove entity s.entity_to_winit
            winit_to_entity := mapRemove winit_id s.winit_to_entity } := by
        simp [apply_op, remove_window, hE]
      rw [hs]
      refine ⟨?_, ?_, ?_⟩
      · intro e i h
        by_cases he : e = entity
        · subst he
          simp [mapRemove] at h
        · have h' : s.entity_to_winit e = some i := by
            simpa [mapRemove, he] using h
          have hi : i ≠ winit_id := by
            intro hi
            subst hi
            have ha := (inv1 e i h').1
            have hb := (inv1 entity i hE).1
            rw [ha] at hb
            exact he (Option.some.inj hb)
          refine ⟨?_, ?_⟩
          · simp [mapRemove, hi, (inv1 e i h').1]
          · simpa [mapRemove, hi] using (inv1 e i h').2
      · intro i e h
        by_cases hi : i = winit_id
        · subst hi
          simp [mapRemove] at h
        · have h' : s.winit_to_entity i = some e := by
            simpa [mapRemove, hi] using h
          have he : e ≠ entity := by
            intro he
            subst he
            have := inv2 i e h'
            rw [hE] at this
            exact hi (Option.some.inj this.symm)
          simpa [mapRemove, he] using inv2 i e h'
      · intro i h
        by_cases hi : i = winit_id
        · subst hi
          simp [mapRemove] at h
        · have h' : (s.windows i).isSome := by simpa [mapRemove, hi] using h
          simpa [mapRemove, hi] using inv3 i h'

/-- Claim C1 (amended): the empty registry satisfies the three-map
mutual-inverse invariant, and it is preserved by every create_window call
that registers a not-yet-registered entity under a platform window id not
currently in use (as the platform guarantees for live windows) and by
every remove_window call; hence it holds at every point of every such
sequence started from the empty registry. -/
theorem registry_inv_preserved :
    RegistryInv WinitWindows.new ∧
    (∀ s op, RegistryInv s → op_ok op s → RegistryInv (apply_op op s)) ∧
    (∀ ops s, RegistryInv s → ops_ok ops s → RegistryInv (run_ops ops s)) := by
  refine ⟨?_, fun s op => registry_inv_step s op, ?_⟩
  · refine ⟨?_, ?_, ?_⟩
    · intro e i h
      simp [WinitWindows.new] at h
    · intro i e h
      simp [WinitWindows.new] at h
    · intro i h
      simp [WinitWindows.new] at h
  · intro ops
    induction ops with
    | nil =>
      intro s hInv _
      exact hInv
    | cons op rest ih =>
      intro s hInv hok
      exact ih _ (registry_inv_step s op hInv hok.1) hok.2

/-- Witness for claim C1's amended preservation statement on a concrete
legal sequence. -/
theorem registry_inv_preserved_witness :
    RegistryInv (run_ops [RegistryOp.create 1 2 3] WinitWindows.new) :=
  registry_inv_preserved.2.2 [RegistryOp.create 1 2 3] WinitWindows.new
    registry_inv_preserved.1 ⟨⟨rfl, rfl⟩, trivial⟩

/-- Claim C10: a successful create_window for an entity already registered
under a different id silently overwrites the entity-to-id entry with the
new id, while the old id keeps its handle in windows and its stale entry
in winit_to_entity, and the call is not rejected. -/
theorem create_window_duplicate_overwrite (platform : Platform)
    (s : WinitWindows) (entity : Nat) (window : Window)
    (cursor_options : CursorOptions) (monitors : WinitMonitors)
    (primary_monitor : Option MonitorHandle) (i1 h1 i2 h2 : Nat)
    (hreg : s.entity_to_winit entity = some i1)
    (hrev : s.winit_to_entity i1 = some entity)
    (hwin : s.windows i1 = some h1)
    (hne : i1 ≠ i2)
    (hplat : platform.create
      (create_window_attributes window monitors primary_monitor).1 =
      .ok (i2, h2)) :
    (create_window platform s entity window cursor_options monitors
      primary_monitor).1 = .ok h2 ∧
    (create_window platform s entity window cursor_options monitors
      primary_monitor).2.1.entity_to_winit entity = some i2 ∧
    (create_window platform s entity window cursor_options monitors
      primary_monitor).2.1.winit_to_entity i1 = some entity ∧
    (create_window platform s entity window cursor_options monitors
      primary_monitor).2.1.windows i1 = some h1 ∧
    (create_window platform s entity window cursor_options monitors
      primary_monitor).2.1.winit_to_entity i2 = some entity ∧
    (create_window platform s entity window cursor_options monitors
      primary_monitor).2.1.windows i2 = some h2 := by
  refine ⟨?_, ?_, ?_, ?_, ?_, ?_⟩ <;>
    simp [create_window, hplat, mapInsert, hne, hrev, hwin]

/-- Witness for claim C10: entity 4 is registered under id 5 with handle
6, then created again with fresh id 8 and handle 9; the old entries
survive next to the overwritten forward entry. -/
theorem create_window_duplicate_overwrite_witness :
    (create_window (okPlatform 8 9)
      (apply_op (RegistryOp.create 4 5 6) WinitWindows.new) 4 plainWindow
      plainCursorOptions noMonitors none).2.1.entity_to_winit 4 = some 8 ∧
    (create_window (okPlatform 8 9)
      (apply_op (RegistryOp.create 4 5 6) WinitWindows.new) 4 plainWindow
      plainCursorOptions noMonitors none).2.1.windows 5 = some 6 ∧
    (create_window (okPlatform 8 9)
      (apply_op (RegistryOp.create 4 5 6) WinitWindows.new) 4 plainWindow
      plainCursorOptions noMonitors none).2.1.winit_to_entity 5 = some 4 := by
  have h := create_window_duplicate_overwrite (okPlatform 8 9)
    (apply_op (RegistryOp.create 4 5 6) WinitWindows.new) 4 plainWindow
    plainCursorOptions noMonitors none 5 6 8 9 rfl rfl rfl (by decide) rfl
  exact ⟨h.2.1, h.2.2.2.1, h.2.2.1⟩

/-- Claim C9: create_window issues no grab request when the cursor policy
is None, and whenever the platform creation call succeeds the call returns
success, whatever the grab stub does (grab failures are not propagated). -/
theorem create_window_grab_policy (platform : Platform) (s : WinitWindows)
    (entity : Nat) (window : Window) (cursor_options : CursorOptions)
    (monitors : WinitMonitors) (primary_monitor : Option MonitorHandle) :
    (cursor_options.grab_mode = CursorGrabMode.None →
      ∀ mode, Effect.Grab mode ∉
        (create_window platform s entity window cursor_options monitors
          primary_monitor).2.2) ∧
    (∀ winit_id winit_window,
      platform.create
        (create_window_attributes window monitors primary_monitor).1 =
        .ok (winit_id, winit_window) →
      (create_window platform s entity window cursor_options monitors
        primary_monitor).1 = .ok winit_window) := by
  constructor
  · intro hnone mode
    cases hplat : platform.create
        (create_window_attributes window monitors primary_monitor).1 with
    | error e =>
      simp [create_window, hplat]
    | ok pair =>
      obtain ⟨winit_id, winit_window⟩ := pair
      cases hh : cursor_options.hit_test <;>
        simp [create_window, hplat, hnone, hh]
  · intro winit_id winit_window hplat
    simp [create_window, hplat]

/-- Witness for claim C9: with a platform whose grab call always fails,
creation still returns the new window handle. -/
theorem create_window_grab_policy_witness :
    (create_window grabFailPlatform WinitWindows.new 0 plainWindow
      confinedCursorOptions noMonitors none).1 = .ok 3 :=
  (create_window_grab_policy grabFailPlatform WinitWindows.new 0 plainWindow
    confinedCursorOptions noMonitors none).2 2 3 rfl

/-- Claim C5: in create_window's Fullscreen mode, a resolved monitor with
no matching video mode leaves the attributes unchanged (windowed, not
borderless) and emits a warning, while an unresolved monitor yields
borderless fullscreen with no explicit monitor and emits a warning. -/
theorem fullscreen_fallback (window : Window) (monitors : WinitMonitors)
    (primary_monitor : Option MonitorHandle)
    (monitor_selection : MonitorSelection)
    (video_mode_selection : VideoModeSelection)
    (hmode : window.mode = .Fullscreen monitor_selection video_mode_selection) :
    (∀ monitor,
      select_monitor monitors primary_monitor none monitor_selection =
        some monitor →
      get_selected_videomode monitor video_mode_selection = none →
      (create_window_attributes window monitors primary_monitor).1 =
        ({} : WindowAttributes) ∧
      (create_window_attributes window monitors primary_monitor).1.fullscreen =
        none ∧
      (create_window_attributes window monitors primary_monitor).2 =
        [.NoVideoMode]) ∧
    (select_monitor monitors primary_monitor none monitor_selection = none →
      (create_window_attributes window monitors primary_monitor).1.fullscreen =
        some (.Borderless none) ∧
      (create_window_attributes window monitors primary_monitor).2 =
        [.NoMonitor]) := by
  constructor
  · intro monitor hsel hvm
    refine ⟨?_, ?_, ?_⟩ <;>
      simp [create_window_attributes, hmode, hsel, hvm]
  · intro hsel
    constructor <;>
      simp [create_window_attributes, hmode, hsel]

/-- Witness for claim C5's no-video-mode clause: exclusive fullscreen on a
monitor with no modes keeps the windowed attributes and warns. -/
theorem fullscreen_fallback_witness :
    (create_window_attributes fsWindow oneMonitorDir none).1 =
      ({} : WindowAttributes) ∧
    (create_window_attributes fsWindow oneMonitorDir none).2 =
      [.NoVideoMode] := by
  have h := (fullscreen_fallback fsWindow oneMonitorDir none (.Index 0)
    (.Specific exampleSpec) rfl).1 noModesMonitor rfl rfl
  exact ⟨h.1, h.2.2⟩

/-- A successful find? hit is a match, and everything enumerated before it
fails the predicate. -/
theorem find?_first {α : Type} (p : α → Bool) (l : List α) (b : α)
    (h : l.find? p = some b) :
    p b = true ∧ ∃ l1 l2, l = l1 ++ b :: l2 ∧ ∀ a ∈ l1, ¬ p a = true := by
  induction l with
  | nil => simp [List.find?] at h
  | cons x xs ih =>
    cases hx : p x with
    | true =>
      have hxb : some x = some b := by
        simpa [List.find?, hx] using h
      obtain rfl := Option.some.inj hxb
      exact ⟨hx, [], xs, by simp, by simp⟩
    | false =>
      have h' : xs.find? p = some b := by
        simpa [List.find?, hx] using h
      obtain ⟨hb, l1, l2, rfl, hall⟩ := ih h'
      refine ⟨hb, x :: l1, l2, rfl, ?_⟩
      intro a ha
      rcases List.mem_cons.mp ha with rfl | ha
      · simp [hx]
      · exact hall a ha

/-- The Bool predicate of the Specific scan agrees with SpecMatches. -/
theorem spec_pred_iff (specified : BevyVideoMode) (mode : VideoMode) :
    (mode.width == specified.physical_size_x
      && mode.height == specified.physical_size_y
      && (mode.refresh_rate_millihertz.getD 0 ==
            specified.refresh_rate_millihertz)
      && (mode.bit_depth.getD 0 == specified.bit_depth)) = true ↔
    SpecMatches specified mode := by
  simp [SpecMatches, Bool.and_eq_true, beq_iff_eq, and_assoc]

/-- Claim C7: the Specific video-mode selection returns the first mode, in
the monitor's enumeration order, matching all four fields exactly (absent
platform rate or depth comparing as 0), and none when no mode matches. -/
theorem get_selected_videomode_spec (monitor : MonitorHandle)
    (specified : BevyVideoMode) :
    (get_selected_videomode monitor (.Specific specified) = none ↔
      ∀ mode ∈ monitor.video_modes, ¬ SpecMatches specified mode) ∧
    (∀ mode,
      get_selected_videomode monitor (.Specific specified) = some mode →
      SpecMatches specified mode ∧
      ∃ l1 l2, monitor.video_modes = l1 ++ mode :: l2 ∧
        ∀ m ∈ l1, ¬ SpecMatches specified m) := by
  constructor
  · simp only [get_selected_videomode, List.find?_eq_none]
    constructor
    · intro h mode hm
      rw [← spec_pred_iff specified mode]
      simp [h mode hm]
    · intro h mode hm
      have := h mode hm
      rw [← spec_pred_iff specified mode] at this
      simp [this]
  · intro mode hfind
    simp only [get_selected_videomode] at hfind
    obtain ⟨hb, l1, l2, hsplit, hall⟩ := find?_first _ _ _ hfind
    refine ⟨(spec_pred_iff specified mode).mp hb, l1, l2, hsplit, ?_⟩
    intro m hm
    rw [← spec_pred_iff specified m]
    exact hall m hm

/-- Witness for claim C7 at the two-mode example: the selection requesting
bit depth 32 returns the second mode, which matches, after the first,
which does not. -/
theorem get_selected_videomode_spec_witness :
    get_selected_videomode exampleMonitor (.Specific exampleSpec) =
      some videoMode1920x32 ∧
    SpecMatches exampleSpec videoMode1920x32 ∧
    (∃ l1 l2, exampleMonitor.video_modes = l1 ++ videoMode1920x32 :: l2 ∧
      ∀ m ∈ l1, ¬ SpecMatches exampleSpec m) := by
  have h := (get_selected_videomode_spec exampleMonitor exampleSpec).2
    videoMode1920x32 rfl
  exact ⟨rfl, h.1, h.2⟩

/-- Rounding a rational that is an integer returns that integer. -/
theorem roundHalfAway_intCast (z : Int) : roundHalfAway (z : ℚ) = z := by
  unfold roundHalfAway
  by_cases h : (0 : ℚ) ≤ (z : ℚ)
  · rw [if_pos h, Int.floor_int_add]
    norm_num
  · rw [if_neg h]
    have h2 : -(z : ℚ) + 1/2 = ((-z : Int) : ℚ) + 1/2 := by push_cast; ring
    rw [h2, Int.floor_int_add]
    norm_num

/-- Rounding an integer plus a nonnegative offset is at least the
integer. -/
theorem le_roundHalfAway_int_add (z : Int) (q : ℚ) (hq : 0 ≤ q) :
    z ≤ roundHalfAway (q + z) := by
  unfold roundHalfAway
  by_cases h : (0 : ℚ) ≤ q + z
  · rw [if_pos h, Int.le_floor]
    push_cast
    linarith
  · rw [if_neg h]
    have hfl : ⌊-(q + (z : ℚ)) + 1/2⌋ < -z + 1 := by
      rw [Int.floor_lt]
      push_cast
      linarith
    omega

/-- The saturating i32 cast does not drop below any bound that is itself
within the upper saturation limit. -/
theorem i32cast_le (z r : Int) (hzr : z ≤ r) (hz : z ≤ 2 ^ 31 - 1) :
    z ≤ i32cast r := by
  unfold i32cast
  omega

/-- The saturating i32 cast is the identity inside the i32 range. -/
theorem i32cast_eq (z : Int) (h1 : -(2 ^ 31) ≤ z) (h2 : z ≤ 2 ^ 31 - 1) :
    i32cast z = z := by
  unfold i32cast
  omega

/-- Claim C6: for a Centered selection resolving to a monitor with a
current video mode, the positioner returns, on each axis, the monitor
origin plus half the saturating difference between the monitor physical
size and the window physical size (the logical size scaled by the override
factor if present, else the monitor scale factor), rounded and cast; each
axis is at least the monitor origin; and when the difference is even and
the result in range, the axis is exactly origin + difference / 2. -/
theorem winit_window_position_centered (resolution : WindowResolution)
    (monitors : WinitMonitors)
    (primary_monitor current_monitor : Option MonitorHandle)
    (monitor_selection : MonitorSelection) (monitor : MonitorHandle)
    (video_mode : VideoMode) (w h : Nat) (ox oy : Int)
    (hsel : select_monitor monitors primary_monitor current_monitor
      monitor_selection = some monitor)
    (hvm : monitor.current_video_mode = some video_mode)
    (hw : w = u32cast (resolution.width *
      resolution.scale_factor_override.getD monitor.scale_factor))
    (hh : h = u32cast (resolution.height *
      resolution.scale_factor_override.getD monitor.scale_factor))
    (hox : ox = (monitor.position.getD (0, 0)).1)
    (hoy : oy = (monitor.position.getD (0, 0)).2) :
    winit_window_position (.Centered monitor_selection) resolution monitors
        primary_monitor current_monitor =
      some
        (i32cast (roundHalfAway
          (((video_mode.width - w : Nat) : ℚ) / 2 + (ox : ℚ))),
         i32cast (roundHalfAway
          (((video_mode.height - h : Nat) : ℚ) / 2 + (oy : ℚ)))) ∧
    (ox ≤ 2 ^ 31 - 1 →
      ox ≤ i32cast (roundHalfAway
        (((video_mode.width - w : Nat) : ℚ) / 2 + (ox : ℚ)))) ∧
    (oy ≤ 2 ^ 31 - 1 →
      oy ≤ i32cast (roundHalfAway
        (((video_mode.height - h : Nat) : ℚ) / 2 + (oy : ℚ)))) ∧
    (2 ∣ video_mode.width - w →
      -(2 ^ 31) ≤ ox + ((video_mode.width - w) / 2 : Nat) →
      ox + ((video_mode.width - w) / 2 : Nat) ≤ 2 ^ 31 - 1 →
      i32cast (roundHalfAway
        (((video_mode.width - w : Nat) : ℚ) / 2 + (ox : ℚ))) =
        ox + ((video_mode.width - w) / 2 : Nat)) ∧
    (2 ∣ video_mode.height - h →
      -(2 ^ 31) ≤ oy + ((video_mode.height - h) / 2 : Nat) →
      oy + ((video_mode.height - h) / 2 : Nat) ≤ 2 ^ 31 - 1 →
      i32cast (roundHalfAway
        (((video_mode.height - h : Nat) : ℚ) / 2 + (oy : ℚ))) =
        oy + ((video_mode.height - h) / 2 : Nat)) := by
  have hge : ∀ (o : Int) (d : Nat), o ≤ 2 ^ 31 - 1 →
      o ≤ i32cast (roundHalfAway ((d : ℚ) / 2 + (o : ℚ))) := by
    intro o d ho
    refine i32cast_le o _ ?_ ho
    apply le_roundHalfAway_int_add
    positivity
  have hexact : ∀ (o : Int) (d : Nat), 2 ∣ d →
      -(2 ^ 31) ≤ o + (d / 2 : Nat) → o + (d / 2 : Nat) ≤ 2 ^ 31 - 1 →
      i32cast (roundHalfAway ((d : ℚ) / 2 + (o : ℚ))) = o + (d / 2 : Nat) := by
    intro o d hdvd hlo hhi
    obtain ⟨k, rfl⟩ := hdvd
    have hhalf : (2 * k) / 2 = k := by omega
    rw [hhalf] at hlo hhi ⊢
    have hq : ((2 * k : Nat) : ℚ) / 2 + (o : ℚ) = ((o + (k : Int) : Int) : ℚ) := by
      push_cast
      ring
    rw [hq, roundHalfAway_intCast, i32cast_eq]
    · push_cast at hlo ⊢
      linarith
    · push_cast at hhi ⊢
      linarith
  refine ⟨?_, hox ▸ hge _ _, hoy ▸ hge _ _, hox ▸ hexact _ _, hoy ▸ hexact _ _⟩
  subst hw hh hox hoy
  simp only [winit_window_position, hsel, hvm]
  cases hso : resolution.scale_factor_override <;>
    simp [hso, Option.getD]

/-- Witness for claim C6 at the concrete instance of the spec: monitor
1920x1080 at origin (0,0), scale factor 1, window 800x600, centered on the
primary monitor, yields physical position (560, 240). -/
theorem winit_window_position_centered_witness :
    winit_window_position (.Centered .Primary) centerResolution noMonitors
      (some centerMonitor) none = some (560, 240) := by
  have hw : (800 : Nat) = u32cast (centerResolution.width *
      centerResolution.scale_factor_override.getD centerMonitor.scale_factor) := by
    have h1 : centerResolution.width *
        centerResolution.scale_factor_override.getD centerMonitor.scale_factor =
        ((800 : Int) : ℚ) := by
      norm_num [centerResolution, centerMonitor]
    unfold u32cast
    rw [h1, roundHalfAway_intCast]
    decide
  have hh : (600 : Nat) = u32cast (centerResolution.height *
      centerResolution.scale_factor_override.getD centerMonitor.scale_factor) := by
    have h1 : centerResolution.height *
        centerResolution.scale_factor_override.getD centerMonitor.scale_factor =
        ((600 : Int) : ℚ) := by
      norm_num [centerResolution, centerMonitor]
    unfold u32cast
    rw [h1, roundHalfAway_intCast]
    decide
  have hmain := winit_window_position_centered centerResolution noMonitors
    (some centerMonitor) none .Primary centerMonitor videoMode1920
    800 600 0 0 rfl rfl hw hh rfl rfl
  rw [hmain.1, hmain.2.2.2.1 (by decide) (by decide) (by decide),
    hmain.2.2.2.2 (by decide) (by decide) (by decide)]
  decide

end BevyWinit
